import Mathlib

/-!
Verification development for the sera-service merge and readiness core
(`app/core/merge.py` and `app/api/v1/snapshot.py`).

Numbers: Python floats and SQL `Float` columns are modelled as `ℚ`;
Python `None` is `Option.none`.  Dates are modelled as integers (day
numbers), so `d - timedelta(days=7)` becomes `d - 7`.  The database is
a record of three by-date stores (at most one `WhoopDaily` row per date
by the unique constraint `uq_whoop_date`; for `body_metrics` the merge
only ever reads the latest entry of the day, so the store holds that
latest entry; at most one snapshot per date by `uq_snapshot_date`).
-/

namespace SeraService

/-- Python `int(x)` on a float: truncation toward zero. -/
def pyTrunc (x : ℚ) : Int :=
  if x < 0 then -(Int.floor (-x)) else Int.floor x

/-- Python `round(x)` with one argument: round half to even. -/
def pyRound (x : ℚ) : Int :=
  let n := Int.floor x
  let frac := x - (n : ℚ)
  if frac < 1/2 then n
  else if 1/2 < frac then n + 1
  else if n % 2 = 0 then n else n + 1

/-- Python `x or 0.0` on an optional number: `None` and `0` are falsy. -/
def pyOrZero (x : Option ℚ) : ℚ :=
  match x with
  | none => 0
  | some v => if v = 0 then 0 else v

/-- `_avg` from `snapshot.py`: mean of the non-null values, `None` when
there are none. -/
def pyAvg (values : List (Option ℚ)) : Option ℚ :=
  let nums := values.filterMap id
  if nums.isEmpty then none else some (nums.sum / (nums.length : ℚ))

/-- `WhoopDaily` (`app/models/whoop.py`): the wearable's daily summary row.
Only the numeric metric columns read by the merge and readiness code are
modelled; `raw_payload`/`created_at`/`date` are irrelevant to the claims
(`date` is the store's key). -/
structure WhoopDaily where
  id : Nat
  recovery_score : Option ℚ
  hrv_ms : Option ℚ
  rhr_bpm : Option ℚ
  respiratory_rate : Option ℚ
  sleep_hours : Option ℚ
  sleep_efficiency_pct : Option ℚ
  deep_sleep_min : Option ℚ
  rem_sleep_min : Option ℚ
  strain : Option ℚ
  avg_hr_day : Option ℚ
  avg_hr_sleep : Option ℚ
  spo2_pct : Option ℚ

/-- `BodyMetricsEntry` (`app/models/body_metrics.py`): one scale reading.
Only the columns the merge reads are modelled (the model has many more
composition columns, none consulted by `merge.py`). -/
structure BodyMetricsEntry where
  weight_kg : Option ℚ
  weight_lb : Option ℚ
  body_fat_pct : Option ℚ
  body_water_pct : Option ℚ

/-- The nested `signal_scores` dict of the flags payload. -/
structure SignalScores where
  hrv : Option Int
  sleep : Option Int
  recovery : Option Int

/-- The JSON `flags` payload written by `compute_readiness_for_date`. -/
structure FlagsPayload where
  flags : List String
  sleep_debt_hours : Option ℚ
  hrv_baseline : Option ℚ
  sleep_baseline : Option ℚ
  strain_baseline : Option ℚ
  recovery_baseline : Option ℚ
  hrv_trend_pct : Option ℚ
  sleep_trend_pct : Option ℚ
  signal_scores : SignalScores

/-- `SeraDailySnapshot` (`app/models/snapshot.py`): the canonical daily
record.  All nullable columns start as `none` (SQLAlchemy default). -/
structure SeraDailySnapshot where
  date : Int
  hrv_ms : Option ℚ
  rhr_bpm : Option ℚ
  sleep_hours : Option ℚ
  sleep_efficiency_pct : Option ℚ
  deep_sleep_pct : Option ℚ
  rem_sleep_pct : Option ℚ
  sleep_consistency_pct : Option ℚ
  sleep_disturbance_count : Option ℚ
  weight_kg : Option ℚ
  weight_lb : Option ℚ
  bodyfat_pct : Option ℚ
  hydration_pct : Option ℚ
  recovery_score : Option ℚ
  strain : Option ℚ
  respiratory_rate : Option ℚ
  spo2_pct : Option ℚ
  readiness_index : Option Int
  readiness_zone : Option String
  flags : Option FlagsPayload
  insight : Option String
  whoop_id : Option Nat
  apple_health_id : Option Nat

/-- A freshly constructed `SeraDailySnapshot(date=d)`: every nullable
column is `None`. -/
def newSnapshot (d : Int) : SeraDailySnapshot :=
  { date := d, hrv_ms := none, rhr_bpm := none, sleep_hours := none,
    sleep_efficiency_pct := none, deep_sleep_pct := none, rem_sleep_pct := none,
    sleep_consistency_pct := none, sleep_disturbance_count := none,
    weight_kg := none, weight_lb := none, bodyfat_pct := none,
    hydration_pct := none, recovery_score := none, strain := none,
    respiratory_rate := none, spo2_pct := none,
    readiness_index := none, readiness_zone := none, flags := none,
    insight := none, whoop_id := none, apple_health_id := none }

/-- The canonical metric names of `_METRICS` in `merge.py`. -/
inductive Metric
  | hrv_ms | rhr_bpm | sleep_hours | sleep_efficiency_pct
  | deep_sleep_pct | rem_sleep_pct | sleep_consistency_pct
  | sleep_disturbance_count | weight_kg | weight_lb | bodyfat_pct
  | hydration_pct | recovery_score | strain | respiratory_rate | spo2_pct
  deriving DecidableEq

/-- The `Source` enum of `merge.py`. -/
inductive Source
  | whoop | body
  deriving DecidableEq

/-- `METRIC_SOURCE_PRIORITY` from `merge.py`: per-metric ordered source
list; scale metrics check the body source first, everything else is
WHOOP-only. -/
def METRIC_SOURCE_PRIORITY : Metric → List Source
  | .weight_kg => [.body, .whoop]
  | .weight_lb => [.body, .whoop]
  | .bodyfat_pct => [.body, .whoop]
  | .hydration_pct => [.body, .whoop]
  | _ => [.whoop]

/-- Python `getattr(whoop, metric, None)` over the canonical metric
names: `WhoopDaily` has columns for eight of them; for the other eight
(`deep_sleep_pct`, `rem_sleep_pct`, `sleep_consistency_pct`,
`sleep_disturbance_count`, `weight_kg`, `weight_lb`, `bodyfat_pct`,
`hydration_pct`) there is no such attribute and `getattr` yields the
`None` default. -/
def whoopAttr (w : WhoopDaily) : Metric → Option ℚ
  | .hrv_ms => w.hrv_ms
  | .rhr_bpm => w.rhr_bpm
  | .sleep_hours => w.sleep_hours
  | .sleep_efficiency_pct => w.sleep_efficiency_pct
  | .recovery_score => w.recovery_score
  | .strain => w.strain
  | .respiratory_rate => w.respiratory_rate
  | .spo2_pct => w.spo2_pct
  | _ => none

/-- `_get_value` from `merge.py`: resolve one metric against one source,
with the sleep-stage percentage derivation and the kg→lb conversion.
The guard `whoop.sleep_hours and whoop.sleep_hours > 0` (truthy and
positive) is `0 < sh` on `ℚ`; when it fails control falls through to the
final `getattr`. -/
def get_value (src : Source) (metric : Metric)
    (body : Option BodyMetricsEntry) (whoop : Option WhoopDaily) : Option ℚ :=
  match src with
  | .whoop =>
    match whoop with
    | none => none
    | some w =>
      match metric with
      | .deep_sleep_pct =>
        match w.sleep_hours with
        | some sh =>
          if 0 < sh then
            match w.deep_sleep_min with
            | some m => some (m / (sh * 60) * 100)
            | none => none
          else whoopAttr w .deep_sleep_pct
        | none => whoopAttr w .deep_sleep_pct
      | .rem_sleep_pct =>
        match w.sleep_hours with
        | some sh =>
          if 0 < sh then
            match w.rem_sleep_min with
            | some m => some (m / (sh * 60) * 100)
            | none => none
          else whoopAttr w .rem_sleep_pct
        | none => whoopAttr w .rem_sleep_pct
      | .weight_lb =>
        match whoopAttr w .weight_kg with
        | some kg => some (kg * 2.20462)
        | none => whoopAttr w .weight_lb
      | m => whoopAttr w m
  | .body =>
    match body with
    | none => none
    | some b =>
      match metric with
      | .weight_kg => b.weight_kg
      | .weight_lb =>
        match b.weight_lb with
        | some lb => some lb
        | none =>
          match b.weight_kg with
          | some kg => some (kg * 2.20462)
          | none => none
      | .bodyfat_pct => b.body_fat_pct
      | .hydration_pct => b.body_water_pct
      | _ => none

/-- Walk a source list, returning the first non-null resolved value. -/
def chooseFrom (srcs : List Source) (metric : Metric)
    (body : Option BodyMetricsEntry) (whoop : Option WhoopDaily) : Option ℚ :=
  match srcs with
  | [] => none
  | src :: rest =>
    match get_value src metric body whoop with
    | some v => some v
    | none => chooseFrom rest metric body whoop

/-- `choose_metric` from `merge.py`. -/
def choose_metric (metric : Metric)
    (body : Option BodyMetricsEntry) (whoop : Option WhoopDaily) : Option ℚ :=
  chooseFrom (METRIC_SOURCE_PRIORITY metric) metric body whoop

/-- The persistent store, keyed by date. -/
structure DB where
  whoop : Int → Option WhoopDaily
  body : Int → Option BodyMetricsEntry
  snapshots : Int → Option SeraDailySnapshot

/-- The assignment block of `merge_for_date` (`merge.py` lines 156-177):
overwrite every canonical metric field of `snap0` with the chosen value,
clear the legacy `apple_health_id`, record `whoop_id` provenance, leave
the readiness fields as they were. -/
def mergeValues (body : Option BodyMetricsEntry) (whoop : Option WhoopDaily)
    (snap0 : SeraDailySnapshot) : SeraDailySnapshot :=
  { snap0 with
    hrv_ms := choose_metric .hrv_ms body whoop,
    rhr_bpm := choose_metric .rhr_bpm body whoop,
    sleep_hours := choose_metric .sleep_hours body whoop,
    sleep_efficiency_pct := choose_metric .sleep_efficiency_pct body whoop,
    deep_sleep_pct := choose_metric .deep_sleep_pct body whoop,
    rem_sleep_pct := choose_metric .rem_sleep_pct body whoop,
    sleep_consistency_pct := choose_metric .sleep_consistency_pct body whoop,
    sleep_disturbance_count := choose_metric .sleep_disturbance_count body whoop,
    weight_kg := choose_metric .weight_kg body whoop,
    weight_lb := choose_metric .weight_lb body whoop,
    bodyfat_pct := choose_metric .bodyfat_pct body whoop,
    hydration_pct := choose_metric .hydration_pct body whoop,
    recovery_score := choose_metric .recovery_score body whoop,
    strain := choose_metric .strain body whoop,
    respiratory_rate := choose_metric .respiratory_rate body whoop,
    spo2_pct := choose_metric .spo2_pct body whoop,
    apple_health_id := none,
    whoop_id := whoop.map (fun w => w.id) }

/-- The lookup-or-create step of `merge_for_date`: the existing snapshot
for the date, or a fresh `SeraDailySnapshot(date=d)` added to the
session. -/
def snapOrNew (db : DB) (d : Int) : SeraDailySnapshot :=
  match db.snapshots d with
  | some s => s
  | none => newSnapshot d

/-- `merge_for_date` from `merge.py`: returns `None` when neither source
has a row for the date; otherwise applies `mergeValues` to the looked-up
snapshot (or a fresh `SeraDailySnapshot(date=d)`) and stores it. -/
def merge_for_date (db : DB) (d : Int) : Option SeraDailySnapshot × DB :=
  let whoop := db.whoop d
  let body := db.body d
  match body, whoop with
  | none, none => (none, db)
  | _, _ =>
    let snap := mergeValues body whoop (snapOrNew db d)
    (some snap, { db with snapshots := fun d2 => if d2 = d then some snap else db.snapshots d2 })

/-- The 7-day lookback window of `compute_readiness_for_date`: snapshots
with date in `[d - 7, d)`, ascending by date. -/
def historyOf (db : DB) (d : Int) : List SeraDailySnapshot :=
  (List.range 7).filterMap (fun i => db.snapshots (d - 7 + i))

/-- `hrv_baseline`: 7-day mean of `hrv_ms`, ignoring nulls. -/
def hrvBaseline (db : DB) (d : Int) : Option ℚ :=
  pyAvg ((historyOf db d).map (fun s => s.hrv_ms))

/-- `sleep_baseline`: 7-day mean of `sleep_hours`, ignoring nulls. -/
def sleepBaseline (db : DB) (d : Int) : Option ℚ :=
  pyAvg ((historyOf db d).map (fun s => s.sleep_hours))

/-- `strain_baseline`: 7-day mean of `strain`, ignoring nulls. -/
def strainBaseline (db : DB) (d : Int) : Option ℚ :=
  pyAvg ((historyOf db d).map (fun s => s.strain))

/-- `recovery_baseline`: 7-day mean of `recovery_score` (each value is
passed through `float`, the identity here), ignoring nulls. -/
def recoveryBaseline (db : DB) (d : Int) : Option ℚ :=
  pyAvg ((historyOf db d).map (fun s => s.recovery_score))

/-- The `flags` list, built in source order: `hrv_low` (today's HRV and
a baseline exist and today is strictly below baseline), `sleep_debt`
(sleep known and `max(0, 8 - sleep) > 1`), `recovery_low` (recovery
known and `< 70`). -/
def readinessFlags (snap : SeraDailySnapshot) (hrv_baseline : Option ℚ) : List String :=
  (match snap.hrv_ms, hrv_baseline with
   | some h, some b => if h < b then ["hrv_low"] else []
   | _, _ => []) ++
  (match snap.sleep_hours with
   | some s => if 1 < max 0 (8 - s) then ["sleep_debt"] else []
   | none => []) ++
  (match snap.recovery_score with
   | some r => if r < 70 then ["recovery_low"] else []
   | none => [])

/-- `sleep_debt`: the shortfall versus the fixed 8-hour target, clamped
at zero, `None` when sleep is unknown. -/
def sleepDebt (snap : SeraDailySnapshot) : Option ℚ :=
  match snap.sleep_hours with
  | some s => some (max 0 (8 - s))
  | none => none

/-- Zone from flag count: 2+ red, exactly 1 yellow, else green. -/
def readinessZone (flags : List String) : String :=
  if 2 ≤ flags.length then "red"
  else if flags.length = 1 then "yellow"
  else "green"

/-- `hrv_trend_pct`: `None` unless today's HRV exists and the baseline
is neither `None` nor `0` (`hrv_baseline not in (None, 0)`). -/
def hrvTrendPct (snap : SeraDailySnapshot) (hrv_baseline : Option ℚ) : Option ℚ :=
  match snap.hrv_ms, hrv_baseline with
  | some h, some b => if b = 0 then none else some ((h - b) / b * 100)
  | _, _ => none

/-- `sleep_trend_pct`: same guard against a null or zero baseline. -/
def sleepTrendPct (snap : SeraDailySnapshot) (sleep_baseline : Option ℚ) : Option ℚ :=
  match snap.sleep_hours, sleep_baseline with
  | some s, some b => if b = 0 then none else some ((s - b) / b * 100)
  | _, _ => none

/-- `recovery_component = float(snap.recovery_score or 0.0)`. -/
def recoveryComponent (snap : SeraDailySnapshot) : ℚ :=
  pyOrZero snap.recovery_score

/-- `hrv_component`: the guard `snap.hrv_ms is not None and hrv_baseline`
requires a truthy (non-null, non-zero) baseline; on success the ratio is
scaled to 100 and clamped to `[0, 120]`, otherwise the component falls
back to `recovery_component`. -/
def hrvComponent (snap : SeraDailySnapshot) (hrv_baseline : Option ℚ) : ℚ :=
  match snap.hrv_ms, hrv_baseline with
  | some h, some b =>
    if b = 0 then recoveryComponent snap
    else max 0 (min (h / b * 100) 120)
  | _, _ => recoveryComponent snap

/-- `sleep_component`: ratio to the fixed 8-hour target, clamped to
`[0, 120]`; falls back to `recovery_component` when sleep is unknown. -/
def sleepComponent (snap : SeraDailySnapshot) : ℚ :=
  match snap.sleep_hours with
  | some s => max 0 (min (s / 8 * 100) 120)
  | none => recoveryComponent snap

/-- `insight`: canned clause per triggered flag (Python `in` on the
list), joined by `"; "`, or the fixed all-normal sentence. -/
def insightText (flags : List String) : String :=
  let bits :=
    (if flags.contains "hrv_low" then ["HRV below 7-day baseline"] else []) ++
    (if flags.contains "sleep_debt" then ["sleep debt > 1h (target 8h)"] else []) ++
    (if flags.contains "recovery_low" then ["recovery score < 70"] else [])
  if bits.isEmpty then "All primary signals within normal range."
  else String.intercalate "; " bits

/-- The flags payload persisted by `compute_readiness_for_date`: the
signal scores are `int(round(component))` for hrv/sleep — the
`is not None` guards in the source are vacuous since both components
are always floats — and `int(recovery_score)` when defined. -/
def flagsPayload (snap : SeraDailySnapshot)
    (hrv_b sleep_b strain_b recovery_b : Option ℚ) : FlagsPayload :=
  { flags := readinessFlags snap hrv_b,
    sleep_debt_hours := sleepDebt snap,
    hrv_baseline := hrv_b,
    sleep_baseline := sleep_b,
    strain_baseline := strain_b,
    recovery_baseline := recovery_b,
    hrv_trend_pct := hrvTrendPct snap hrv_b,
    sleep_trend_pct := sleepTrendPct snap sleep_b,
    signal_scores :=
      { hrv := some (pyRound (hrvComponent snap hrv_b)),
        sleep := some (pyRound (sleepComponent snap)),
        recovery :=
          match snap.recovery_score with
          | some r => some (pyTrunc r)
          | none => none } }

/-- The persist block of `compute_readiness_for_date` as a function of
today's snapshot and the four baselines:
`readiness_index = int(max(0, min(weighted, 100)))`, zone, flags
payload, insight. -/
def readinessUpdate (snap : SeraDailySnapshot)
    (hrv_b sleep_b strain_b recovery_b : Option ℚ) : SeraDailySnapshot :=
  { snap with
    readiness_index :=
      some (pyTrunc (max 0 (min
        (0.6 * recoveryComponent snap + 0.2 * hrvComponent snap hrv_b
          + 0.2 * sleepComponent snap) 100))),
    readiness_zone := some (readinessZone (readinessFlags snap hrv_b)),
    flags := some (flagsPayload snap hrv_b sleep_b strain_b recovery_b),
    insight := some (insightText (readinessFlags snap hrv_b)) }

/-- `compute_readiness_for_date` from `snapshot.py`: `None` when no
snapshot exists for the date; otherwise computes the four baselines
over the 7-day window, applies `readinessUpdate`, and commits the
updated snapshot. -/
def compute_readiness_for_date (db : DB) (d : Int) : Option SeraDailySnapshot × DB :=
  match db.snapshots d with
  | none => (none, db)
  | some snap =>
    let snap2 := readinessUpdate snap (hrvBaseline db d) (sleepBaseline db d)
      (strainBaseline db d) (recoveryBaseline db d)
    (some snap2, { db with snapshots := fun d2 => if d2 = d then some snap2 else db.snapshots d2 })

/-! ### Concrete rows and stores used by witnesses and counterexamples -/

/-- An empty store: no source rows, no snapshots. -/
def dbEmpty : DB :=
  { whoop := fun _ => none, body := fun _ => none, snapshots := fun _ => none }

/-- A wearable row with every metric null (only the row id). -/
def wNull : WhoopDaily :=
  { id := 1, recovery_score := none, hrv_ms := none, rhr_bpm := none,
    respiratory_rate := none, sleep_hours := none, sleep_efficiency_pct := none,
    deep_sleep_min := none, rem_sleep_min := none, strain := none,
    avg_hr_day := none, avg_hr_sleep := none, spo2_pct := none }

/-- A body row reporting only 70 kg. -/
def bSeventy : BodyMetricsEntry :=
  { weight_kg := some 70, weight_lb := none, body_fat_pct := none, body_water_pct := none }

/-- The end-to-end scenario snapshot: recovery 80, HRV 60 ms, 7.5 h of
sleep. -/
def snapScenario : SeraDailySnapshot :=
  { (newSnapshot 0) with
    recovery_score := some 80,
    hrv_ms := some 60,
    sleep_hours := some 7.5 }

/-- Store holding only the scenario snapshot at date 0 (empty 7-day
history). -/
def dbScenario : DB :=
  { whoop := fun _ => none, body := fun _ => none,
    snapshots := fun d => if d = 0 then some snapScenario else none }

/-- A snapshot with recovery score 69, everything else null. -/
def snap69 : SeraDailySnapshot := { (newSnapshot 0) with recovery_score := some 69 }

/-- Store holding only `snap69` at date 0, plus a wearable source row. -/
def db69 : DB :=
  { whoop := fun d => if d = 0 then some wNull else none, body := fun _ => none,
    snapshots := fun d => if d = 0 then some snap69 else none }

/-- A snapshot whose HRV and sleep are null but whose recovery is 50. -/
def snapNullHrv : SeraDailySnapshot := { (newSnapshot 0) with recovery_score := some 50 }

/-- Store holding only `snapNullHrv` at date 0 (empty history). -/
def dbNullHrv : DB :=
  { whoop := fun _ => none, body := fun _ => none,
    snapshots := fun d => if d = 0 then some snapNullHrv else none }

/-- A snapshot with HRV 50 ms and nothing else. -/
def snapHrvOnly : SeraDailySnapshot := { (newSnapshot 0) with hrv_ms := some 50 }

/-- Store holding only `snapHrvOnly` at date 0, so the 7-day HRV
baseline is null. -/
def dbHrvOnly : DB :=
  { whoop := fun _ => none, body := fun _ => none,
    snapshots := fun d => if d = 0 then some snapHrvOnly else none }

/-! ### Structural lemmas about the two entry points -/

theorem mergeValues_idem (b : Option BodyMetricsEntry) (w : Option WhoopDaily)
    (s0 : SeraDailySnapshot) : mergeValues b w (mergeValues b w s0) = mergeValues b w s0 := rfl

theorem merge_fst_cases (db : DB) (d : Int) :
    (merge_for_date db d).1 = none ∨
    (merge_for_date db d).1 = some (mergeValues (db.body d) (db.whoop d) (snapOrNew db d)) := by
  rcases hb : db.body d with _ | b <;> rcases hw : db.whoop d with _ | w <;>
    simp [merge_for_date, hb, hw]

theorem compute_readiness_eq_some (db : DB) (d : Int) (snap : SeraDailySnapshot)
    (h : db.snapshots d = some snap) :
    (compute_readiness_for_date db d).1 =
      some (readinessUpdate snap (hrvBaseline db d) (sleepBaseline db d)
        (strainBaseline db d) (recoveryBaseline db d)) := by
  simp [compute_readiness_for_date, h]

/-! ### C3: merge returns none iff no source row, and is then a no-op -/

/-- C3: `merge_for_date(d)` returns none if and only if neither the
wearable nor the body-composition store has a record for `d`, and in
that case the database — in particular any existing snapshot for `d` —
is left entirely unchanged. -/
theorem merge_none_iff_no_sources (db : DB) (d : Int) :
    ((merge_for_date db d).1 = none ↔ db.whoop d = none ∧ db.body d = none) ∧
    (db.whoop d = none ∧ db.body d = none → (merge_for_date db d).2 = db) := by
  rcases hb : db.body d with _ | b <;> rcases hw : db.whoop d with _ | w <;>
    simp [merge_for_date, hb, hw]

/-- Witness for C3 at the empty store and date 0. -/
theorem merge_none_iff_no_sources_witness :
    (merge_for_date dbEmpty 0).1 = none ∧ (merge_for_date dbEmpty 0).2 = dbEmpty :=
  ⟨(merge_none_iff_no_sources dbEmpty 0).1.mpr ⟨rfl, rfl⟩,
   (merge_none_iff_no_sources dbEmpty 0).2 ⟨rfl, rfl⟩⟩

/-! ### C4: body-composition source wins for weight_kg -/

/-- C4: the priority list for `weight_kg` puts the body source first, so
whenever the body-composition entry reports a weight, the merged
`weight_kg` is that value — whatever the wearable row holds. -/
theorem weight_kg_prefers_body (b : BodyMetricsEntry) (w : Option WhoopDaily) (v : ℚ)
    (h : b.weight_kg = some v) :
    METRIC_SOURCE_PRIORITY .weight_kg = [Source.body, Source.whoop] ∧
    choose_metric .weight_kg (some b) w = some v := by
  refine ⟨rfl, ?_⟩
  simp [choose_metric, chooseFrom, METRIC_SOURCE_PRIORITY, get_value, h]

/-- Witness for C4: body reports 70.0 kg, a wearable row is present →
merged weight_kg = 70.0. -/
theorem weight_kg_prefers_body_witness :
    METRIC_SOURCE_PRIORITY .weight_kg = [Source.body, Source.whoop] ∧
    choose_metric .weight_kg (some bSeventy) (some wNull) = some 70 :=
  weight_kg_prefers_body bSeventy (some wNull) 70 rfl

/-! ### C5: sleep-stage percentage derivation -/

/-- C5: with 8 h of sleep (480 min) and 96 min of deep sleep the merged
deep-sleep percentage is 20; with null or zero total sleep it is null
(the division branch is never taken). -/
theorem deep_sleep_pct_derivation (w : WhoopDaily) (b : Option BodyMetricsEntry) :
    (w.sleep_hours = some 8 → w.deep_sleep_min = some 96 →
      choose_metric .deep_sleep_pct b (some w) = some 20) ∧
    (w.sleep_hours = none ∨ w.sleep_hours = some 0 →
      choose_metric .deep_sleep_pct b (some w) = none) := by
  constructor
  · intro h1 h2
    simp [choose_metric, chooseFrom, METRIC_SOURCE_PRIORITY, get_value, h1, h2]
    norm_num
  · rintro (h | h) <;>
      simp [choose_metric, chooseFrom, METRIC_SOURCE_PRIORITY, get_value, h, whoopAttr]

/-- Witness for C5: a wearable row with sleep_hours = 8 and
deep_sleep_min = 96 derives 20 %, and one with sleep_hours = 0 derives
null. -/
theorem deep_sleep_pct_derivation_witness :
    choose_metric .deep_sleep_pct none
      (some { wNull with sleep_hours := some 8, deep_sleep_min := some 96 }) = some 20 ∧
    choose_metric .deep_sleep_pct none
      (some { wNull with sleep_hours := some 0, deep_sleep_min := some 96 }) = none :=
  ⟨(deep_sleep_pct_derivation { wNull with sleep_hours := some 8, deep_sleep_min := some 96 }
      none).1 rfl rfl,
   (deep_sleep_pct_derivation { wNull with sleep_hours := some 0, deep_sleep_min := some 96 }
      none).2 (Or.inr rfl)⟩

/-! ### C2: merge is idempotent -/

/-- C2: with the source rows unchanged, running `merge_for_date(d)` a
second time returns the same snapshot and leaves the snapshot store
exactly as after the first run — every snapshot field is identical after
each call. -/
theorem merge_for_date_idempotent (db : DB) (d : Int) :
    (merge_for_date (merge_for_date db d).2 d).1 = (merge_for_date db d).1 ∧
    ∀ d2, (merge_for_date (merge_for_date db d).2 d).2.snapshots d2 =
      (merge_for_date db d).2.snapshots d2 := by
  rcases hb : db.body d with _ | b <;> rcases hw : db.whoop d with _ | w <;>
    simp [merge_for_date, hb, hw, snapOrNew, mergeValues_idem]

/-! ### C6: flag boundary and zone thresholds -/

theorem recovery_low_mem_iff (snap : SeraDailySnapshot) (hb : Option ℚ) :
    "recovery_low" ∈ readinessFlags snap hb ↔
      ∃ r, snap.recovery_score = some r ∧ r < 70 := by
  rcases h1 : snap.hrv_ms with _ | h <;> rcases h2 : hb with _ | b <;>
    rcases h3 : snap.sleep_hours with _ | s <;> rcases h4 : snap.recovery_score with _ | r <;>
      simp [readinessFlags, h1, h2, h3, h4]

theorem readinessZone_green_iff (fs : List String) :
    readinessZone fs = "green" ↔ fs.length = 0 := by
  unfold readinessZone
  split_ifs with h1 h2
  · exact ⟨fun hh => absurd hh (by decide), fun hh => by omega⟩
  · exact ⟨fun hh => absurd hh (by decide), fun hh => by omega⟩
  · exact ⟨fun _ => by omega, fun _ => rfl⟩

theorem readinessZone_yellow_iff (fs : List String) :
    readinessZone fs = "yellow" ↔ fs.length = 1 := by
  unfold readinessZone
  split_ifs with h1 h2
  · exact ⟨fun hh => absurd hh (by decide), fun hh => by omega⟩
  · exact ⟨fun _ => h2, fun _ => rfl⟩
  · exact ⟨fun hh => absurd hh (by decide), fun hh => absurd hh h2⟩

theorem readinessZone_red_iff (fs : List String) :
    readinessZone fs = "red" ↔ 2 ≤ fs.length := by
  unfold readinessZone
  split_ifs with h1 h2
  · exact ⟨fun _ => h1, fun _ => rfl⟩
  · exact ⟨fun hh => absurd hh (by decide), fun hh => absurd hh h1⟩
  · exact ⟨fun hh => absurd hh (by decide), fun hh => absurd hh h1⟩

/-- C6: in the snapshot computed by `compute_readiness_for_date`, the
`recovery_low` flag is present exactly when today's recovery score is
defined and strictly below 70 (70 itself does not trigger), and the
persisted zone is green/yellow/red exactly as the number of triggered
flags is 0 / 1 / at least 2. -/
theorem readiness_flag_zone_boundaries (db : DB) (d : Int) (snap : SeraDailySnapshot)
    (h : db.snapshots d = some snap) :
    ∃ s' p, (compute_readiness_for_date db d).1 = some s' ∧ s'.flags = some p ∧
      ("recovery_low" ∈ p.flags ↔ ∃ r, snap.recovery_score = some r ∧ r < 70) ∧
      (s'.readiness_zone = some "green" ↔ p.flags.length = 0) ∧
      (s'.readiness_zone = some "yellow" ↔ p.flags.length = 1) ∧
      (s'.readiness_zone = some "red" ↔ 2 ≤ p.flags.length) := by
  refine ⟨_, _, compute_readiness_eq_some db d snap h, rfl, ?_, ?_, ?_, ?_⟩
  · exact recovery_low_mem_iff snap (hrvBaseline db d)
  all_goals
    simp only [readinessUpdate, flagsPayload, Option.some.injEq]
  · exact readinessZone_green_iff _
  · exact readinessZone_yellow_iff _
  · exact readinessZone_red_iff _

theorem historyOf_only_today (w : Int → Option WhoopDaily)
    (b : Int → Option BodyMetricsEntry) (s : SeraDailySnapshot) :
    historyOf
      { whoop := w,
        body := b,
        snapshots := fun d => if d = 0 then some s else none } 0 = [] := by
  simp [historyOf, List.range_succ]

/-- Witness for C6: recovery score 69 at date 0 with a wearable row and
empty history. -/
theorem readiness_flag_zone_boundaries_witness :
    ∃ s' p, (compute_readiness_for_date db69 0).1 = some s' ∧ s'.flags = some p ∧
      ("recovery_low" ∈ p.flags ↔ ∃ r, snap69.recovery_score = some r ∧ r < 70) ∧
      (s'.readiness_zone = some "green" ↔ p.flags.length = 0) ∧
      (s'.readiness_zone = some "yellow" ↔ p.flags.length = 1) ∧
      (s'.readiness_zone = some "red" ↔ 2 ≤ p.flags.length) :=
  readiness_flag_zone_boundaries db69 0 snap69 rfl

/-! ### C7: readiness index is an integer in [0, 100] -/

theorem pyTrunc_bounds {x : ℚ} (h0 : 0 ≤ x) (h100 : x ≤ 100) :
    0 ≤ pyTrunc x ∧ pyTrunc x ≤ 100 := by
  unfold pyTrunc
  rw [if_neg (not_lt.mpr h0)]
  refine ⟨Int.floor_nonneg.mpr h0, ?_⟩
  have h2 := Int.floor_mono h100
  have h3 : Int.floor (100 : ℚ) = 100 := by norm_num
  rw [h3] at h2
  exact h2

/-- C7: for any store and date holding a snapshot — hence for every
combination of null and non-null metrics and any 7-day history — the
computed readiness index is an integer n with 0 ≤ n ≤ 100. -/
theorem readiness_index_bounded (db : DB) (d : Int) (snap : SeraDailySnapshot)
    (h : db.snapshots d = some snap) :
    ∃ s', (compute_readiness_for_date db d).1 = some s' ∧
      ∃ n : Int, s'.readiness_index = some n ∧ 0 ≤ n ∧ n ≤ 100 := by
  refine ⟨_, compute_readiness_eq_some db d snap h, _, rfl, ?_⟩
  exact pyTrunc_bounds (le_max_left _ _)
    (max_le (by norm_num) (min_le_right _ _))

/-- Witness for C7 at `db69`. -/
theorem readiness_index_bounded_witness :
    ∃ s', (compute_readiness_for_date db69 0).1 = some s' ∧
      ∃ n : Int, s'.readiness_index = some n ∧ 0 ≤ n ∧ n ≤ 100 :=
  readiness_index_bounded db69 0 snap69 rfl

/-! ### C1: the readiness index truncates, it does not round -/

/-- Counterexample to C1: in the end-to-end scenario (recovery 80,
HRV 60, sleep 7.5 h, empty history) the weighted sum is 82.75 and the
stored readiness index is 82 = int(82.75), not round(82.75) = 83 as the
claim states. -/
theorem readiness_index_not_rounded :
    ∃ s', (compute_readiness_for_date dbScenario 0).1 = some s' ∧
      0.6 * recoveryComponent snapScenario
        + 0.2 * hrvComponent snapScenario (hrvBaseline dbScenario 0)
        + 0.2 * sleepComponent snapScenario = 82.75 ∧
      s'.readiness_index = some 82 ∧ s'.readiness_index ≠ some (pyRound (82.75 : ℚ)) := by
  have hb : hrvBaseline dbScenario 0 = none := by
    simp [hrvBaseline, dbScenario, historyOf_only_today, pyAvg]
  have hrc : recoveryComponent snapScenario = 80 := by
    norm_num [recoveryComponent, pyOrZero, snapScenario, newSnapshot]
  have hhc : hrvComponent snapScenario (hrvBaseline dbScenario 0) = 80 := by
    rw [hb]
    norm_num [hrvComponent, recoveryComponent, pyOrZero, snapScenario, newSnapshot]
  have hsc : sleepComponent snapScenario = 93.75 := by
    norm_num [sleepComponent, snapScenario, newSnapshot, min_def, max_def]
  have hround : pyRound (82.75 : ℚ) = 83 := by
    norm_num [pyRound, Int.floor_eq_iff]
  have hidx : some (pyTrunc (max 0 (min
      (0.6 * recoveryComponent snapScenario
        + 0.2 * hrvComponent snapScenario (hrvBaseline dbScenario 0)
        + 0.2 * sleepComponent snapScenario) 100))) = some (82 : Int) := by
    rw [hrc, hhc, hsc]
    norm_num [pyTrunc, min_def, max_def, Int.floor_eq_iff]
  refine ⟨_, compute_readiness_eq_some dbScenario 0 snapScenario rfl, ?_, hidx, ?_⟩
  · rw [hrc, hhc, hsc]; norm_num
  · show some (pyTrunc (max 0 (min
      (0.6 * recoveryComponent snapScenario
        + 0.2 * hrvComponent snapScenario (hrvBaseline dbScenario 0)
        + 0.2 * sleepComponent snapScenario) 100))) ≠ some (pyRound (82.75 : ℚ))
    rw [hidx, hround]
    simp

/-- C1 (amended): `compute_readiness_for_date` stores
`readiness_index = int(max(0, min(weighted, 100)))` — the clamped
weighted sum `0.6*recovery + 0.2*hrv + 0.2*sleep` truncated toward zero
by Python `int()`, not rounded; in the end-to-end scenario the weighted
sum is 82.75 and the index is 82. -/
theorem readiness_index_formula (db : DB) (d : Int) (snap : SeraDailySnapshot)
    (h : db.snapshots d = some snap) :
    ∃ s', (compute_readiness_for_date db d).1 = some s' ∧
      s'.readiness_index = some (pyTrunc (max 0 (min
        (0.6 * recoveryComponent snap + 0.2 * hrvComponent snap (hrvBaseline db d)
          + 0.2 * sleepComponent snap) 100))) :=
  ⟨_, compute_readiness_eq_some db d snap h, rfl⟩

/-- Witness for the amended C1 at the end-to-end scenario store. -/
theorem readiness_index_formula_witness :
    ∃ s', (compute_readiness_for_date dbScenario 0).1 = some s' ∧
      s'.readiness_index = some (pyTrunc (max 0 (min
        (0.6 * recoveryComponent snapScenario
          + 0.2 * hrvComponent snapScenario (hrvBaseline dbScenario 0)
          + 0.2 * sleepComponent snapScenario) 100))) :=
  readiness_index_formula dbScenario 0 snapScenario rfl

/-! ### C8: hrv/sleep signal scores are not null-safe -/

/-- Counterexample to C8: today's HRV and sleep are null yet the stored
hrv and sleep signal scores are 50 — `round(recovery_component)` — not
null. -/
theorem signal_scores_coerced :
    snapNullHrv.hrv_ms = none ∧ snapNullHrv.sleep_hours = none ∧
    ∃ s' p, (compute_readiness_for_date dbNullHrv 0).1 = some s' ∧ s'.flags = some p ∧
      p.signal_scores.hrv = some 50 ∧ p.signal_scores.sleep = some 50 := by
  have hb : hrvBaseline dbNullHrv 0 = none := by
    simp [hrvBaseline, dbNullHrv, historyOf_only_today, pyAvg]
  refine ⟨rfl, rfl, _, _, compute_readiness_eq_some dbNullHrv 0 snapNullHrv rfl, rfl, ?_, ?_⟩
  · show some (pyRound (hrvComponent snapNullHrv (hrvBaseline dbNullHrv 0))) = some 50
    rw [hb]
    norm_num [hrvComponent, recoveryComponent, pyOrZero, snapNullHrv, newSnapshot, pyRound,
      Int.floor_eq_iff]
  · show some (pyRound (sleepComponent snapNullHrv)) = some 50
    norm_num [sleepComponent, recoveryComponent, pyOrZero, snapNullHrv, newSnapshot, pyRound,
      Int.floor_eq_iff]

/-- C8 (amended): only the recovery signal score is null-safe (null in,
null out); the hrv and sleep signal scores are never null, and each one
independently — whenever today's HRV (resp. sleep duration) is null —
is coerced to `round(recovery_component)`, the fallback sub-score,
rather than left null. -/
theorem signal_scores_fallback (db : DB) (d : Int) (snap : SeraDailySnapshot)
    (h : db.snapshots d = some snap) :
    ∃ s' p, (compute_readiness_for_date db d).1 = some s' ∧ s'.flags = some p ∧
      (p.signal_scores.recovery = none ↔ snap.recovery_score = none) ∧
      p.signal_scores.hrv ≠ none ∧
      p.signal_scores.sleep ≠ none ∧
      (snap.hrv_ms = none → p.signal_scores.hrv = some (pyRound (recoveryComponent snap))) ∧
      (snap.sleep_hours = none →
        p.signal_scores.sleep = some (pyRound (recoveryComponent snap))) := by
  refine ⟨_, _, compute_readiness_eq_some db d snap h, rfl, ?_, ?_, ?_, ?_, ?_⟩
  · show (match snap.recovery_score with
      | some r => some (pyTrunc r)
      | none => none) = none ↔ snap.recovery_score = none
    rcases snap.recovery_score with _ | r <;> simp
  · show some (pyRound (hrvComponent snap (hrvBaseline db d))) ≠ none
    simp
  · show some (pyRound (sleepComponent snap)) ≠ none
    simp
  · intro hh
    show some (pyRound (hrvComponent snap (hrvBaseline db d))) =
      some (pyRound (recoveryComponent snap))
    simp [hrvComponent, hh]
  · intro hs
    show some (pyRound (sleepComponent snap)) = some (pyRound (recoveryComponent snap))
    simp [sleepComponent, hs]

/-- Witness for the amended C8 at `dbNullHrv` (HRV and sleep null,
recovery 50), with the inner implications discharged. -/
theorem signal_scores_fallback_witness :
    ∃ s' p, (compute_readiness_for_date dbNullHrv 0).1 = some s' ∧ s'.flags = some p ∧
      (p.signal_scores.recovery = none ↔ snapNullHrv.recovery_score = none) ∧
      p.signal_scores.hrv ≠ none ∧
      p.signal_scores.sleep ≠ none ∧
      p.signal_scores.hrv = some (pyRound (recoveryComponent snapNullHrv)) ∧
      p.signal_scores.sleep = some (pyRound (recoveryComponent snapNullHrv)) := by
  obtain ⟨s', p, h1, h2, hrec, hnn1, hnn2, hhrv, hsleep⟩ :=
    signal_scores_fallback dbNullHrv 0 snapNullHrv rfl
  exact ⟨s', p, h1, h2, hrec, hnn1, hnn2, hhrv rfl, hsleep rfl⟩

/-! ### C9: field ownership between the two engines -/

/-- C9: when a snapshot exists for the date and at least one source row
exists, the merge leaves all four readiness fields exactly as they were,
and the readiness computation leaves all sixteen raw canonical metric
fields exactly as they were. -/
theorem field_ownership_frame (db : DB) (d : Int) (s0 : SeraDailySnapshot)
    (h : db.snapshots d = some s0) (hsrc : ¬(db.body d = none ∧ db.whoop d = none)) :
    (∃ s', (merge_for_date db d).1 = some s' ∧
      s'.readiness_index = s0.readiness_index ∧ s'.readiness_zone = s0.readiness_zone ∧
      s'.flags = s0.flags ∧ s'.insight = s0.insight) ∧
    (∃ s2, (compute_readiness_for_date db d).1 = some s2 ∧
      s2.hrv_ms = s0.hrv_ms ∧ s2.rhr_bpm = s0.rhr_bpm ∧ s2.sleep_hours = s0.sleep_hours ∧
      s2.sleep_efficiency_pct = s0.sleep_efficiency_pct ∧
      s2.deep_sleep_pct = s0.deep_sleep_pct ∧ s2.rem_sleep_pct = s0.rem_sleep_pct ∧
      s2.sleep_consistency_pct = s0.sleep_consistency_pct ∧
      s2.sleep_disturbance_count = s0.sleep_disturbance_count ∧
      s2.weight_kg = s0.weight_kg ∧ s2.weight_lb = s0.weight_lb ∧
      s2.bodyfat_pct = s0.bodyfat_pct ∧ s2.hydration_pct = s0.hydration_pct ∧
      s2.recovery_score = s0.recovery_score ∧ s2.strain = s0.strain ∧
      s2.respiratory_rate = s0.respiratory_rate ∧ s2.spo2_pct = s0.spo2_pct) := by
  constructor
  · have h0 : snapOrNew db d = s0 := by unfold snapOrNew; rw [h]
    rcases merge_fst_cases db d with hc | hc
    · obtain ⟨hw, hbo⟩ := (merge_none_iff_no_sources db d).1.mp hc
      exact absurd ⟨hbo, hw⟩ hsrc
    · rw [h0] at hc
      exact ⟨_, hc, rfl, rfl, rfl, rfl⟩
  · exact ⟨_, compute_readiness_eq_some db d s0 h, rfl, rfl, rfl, rfl, rfl, rfl, rfl, rfl,
      rfl, rfl, rfl, rfl, rfl, rfl, rfl, rfl⟩

/-- Witness for C9 at `db69` (snapshot present, wearable row present). -/
theorem field_ownership_frame_witness :
    (∃ s', (merge_for_date db69 0).1 = some s' ∧
      s'.readiness_index = snap69.readiness_index ∧
      s'.readiness_zone = snap69.readiness_zone ∧
      s'.flags = snap69.flags ∧ s'.insight = snap69.insight) ∧
    (∃ s2, (compute_readiness_for_date db69 0).1 = some s2 ∧
      s2.hrv_ms = snap69.hrv_ms ∧ s2.rhr_bpm = snap69.rhr_bpm ∧
      s2.sleep_hours = snap69.sleep_hours ∧
      s2.sleep_efficiency_pct = snap69.sleep_efficiency_pct ∧
      s2.deep_sleep_pct = snap69.deep_sleep_pct ∧ s2.rem_sleep_pct = snap69.rem_sleep_pct ∧
      s2.sleep_consistency_pct = snap69.sleep_consistency_pct ∧
      s2.sleep_disturbance_count = snap69.sleep_disturbance_count ∧
      s2.weight_kg = snap69.weight_kg ∧ s2.weight_lb = snap69.weight_lb ∧
      s2.bodyfat_pct = snap69.bodyfat_pct ∧ s2.hydration_pct = snap69.hydration_pct ∧
      s2.recovery_score = snap69.recovery_score ∧ s2.strain = snap69.strain ∧
      s2.respiratory_rate = snap69.respiratory_rate ∧ s2.spo2_pct = snap69.spo2_pct) :=
  field_ownership_frame db69 0 snap69 rfl (by simp [db69])

/-! ### C10: null or zero HRV baseline never divides -/

/-- C10: when today's HRV is defined but the 7-day HRV baseline is null
or exactly 0, the HRV component falls back to the recovery component and
the stored HRV trend is null — the division branches are not taken. -/
theorem hrv_zero_baseline_guard (db : DB) (d : Int) (snap : SeraDailySnapshot)
    (h : db.snapshots d = some snap) (hh : snap.hrv_ms ≠ none)
    (hb : hrvBaseline db d = none ∨ hrvBaseline db d = some 0) :
    hrvComponent snap (hrvBaseline db d) = recoveryComponent snap ∧
    ∃ s' p, (compute_readiness_for_date db d).1 = some s' ∧ s'.flags = some p ∧
      p.hrv_trend_pct = none := by
  obtain ⟨hv, hhv⟩ : ∃ v, snap.hrv_ms = some v := by
    rcases hx : snap.hrv_ms with _ | v
    · exact absurd hx hh
    · exact ⟨v, rfl⟩
  constructor
  · rcases hb with hb | hb <;> simp [hrvComponent, hhv, hb]
  · refine ⟨_, _, compute_readiness_eq_some db d snap h, rfl, ?_⟩
    show hrvTrendPct snap (hrvBaseline db d) = none
    rcases hb with hb | hb <;> simp [hrvTrendPct, hhv, hb]

/-- Witness for C10 at `dbHrvOnly` (HRV 50 today, empty history so the
baseline is null). -/
theorem hrv_zero_baseline_guard_witness :
    hrvComponent snapHrvOnly (hrvBaseline dbHrvOnly 0) = recoveryComponent snapHrvOnly ∧
    ∃ s' p, (compute_readiness_for_date dbHrvOnly 0).1 = some s' ∧ s'.flags = some p ∧
      p.hrv_trend_pct = none :=
  hrv_zero_baseline_guard dbHrvOnly 0 snapHrvOnly rfl
    (by simp [snapHrvOnly, newSnapshot])
    (Or.inl (by simp [hrvBaseline, dbHrvOnly, historyOf_only_today, pyAvg]))

end SeraService
